import Mathlib

/-!
Verification of the SSD1327 I2C OLED driver (`src/lib.rs`).

The driver is embedded shallowly:
* `Commands` mirrors the Rust `Commands` enum (byte parameters become `Nat`,
  understood to be in `0..256`; the Rust field name `end` is a Lean keyword
  and is rendered `stop`, and `GPIO` is rendered `Gpio`).
* `SSD1327I2C` mirrors the driver struct: the stored `width` is the halved
  physical width, `framebuffer` is the 128*64 byte array.
* The I2C bus is modelled by `BusState`: an oracle `err` giving the outcome
  of the n-th bus transaction (`none` = `Ok`, `some e` = transport error
  `e`), a transaction counter `count`, and a `trace` of the issued
  transactions as (slave address, bytes) pairs.  `i2c.write` appends one
  transaction and consumes one oracle outcome.
* A Rust panic (out-of-bounds slice index) is modelled by `Option.none` on
  the result of the whole call, distinct from a transport error.
-/

namespace SSD1327

/-- Commands to be sent to the SSD1327, mirroring the Rust `Commands` enum. -/
inductive Commands where
  | ColumnAddress (start stop : Nat)
  | RowAddress (start stop : Nat)
  | ContrastControl (value : Nat)
  | Remap (value : Nat)
  | DisplayStartLine (value : Nat)
  | DisplayOffset (value : Nat)
  | DisplayModeNormal
  | DisplayModeAllON
  | DisplayModeAllOFF
  | DisplayModeInverseDisplay
  | MUXRatio (value : Nat)
  | FunctionSelectionA (value : Nat)
  | SelectExternalVDD
  | SelectInternalVDD
  | DisplayON
  | DisplayOFF
  | PhaseLength (value : Nat)
  | FrontClockDividerOscillatorFrequency (value : Nat)
  | Gpio (value : Nat)
  | SecondPreChargePeriod (value : Nat)
  | LinearLUT
  | PreChargeVoltage (value : Nat)
  | VCOMH (value : Nat)
  | FunctionSelectionB (value : Nat)
  | SetCommandLock (value : Nat)
  | CommandUnlock
  | CommandLock
deriving DecidableEq

/-- The `(data, len)` pair computed by the `match` in `send_cmd`:
a fixed four-byte buffer together with the number of meaningful bytes. -/
def send_cmd_enc (cmd : Commands) : List Nat × Nat :=
  match cmd with
  | .ColumnAddress start stop => ([0x00, 0x15, start, stop], 4)
  | .RowAddress start stop => ([0x00, 0x75, start, stop], 4)
  | .ContrastControl value => ([0x00, 0x81, value, 0], 3)
  | .Remap value => ([0x00, 0xA0, value, 0], 3)
  | .DisplayStartLine value => ([0x00, 0xA1, value, 0], 3)
  | .DisplayOffset value => ([0x00, 0xA2, value, 0], 3)
  | .DisplayModeNormal => ([0x00, 0xA4, 0, 0], 2)
  | .DisplayModeAllON => ([0x00, 0xA5, 0, 0], 2)
  | .DisplayModeAllOFF => ([0x00, 0xA6, 0, 0], 2)
  | .DisplayModeInverseDisplay => ([0x00, 0xA7, 0, 0], 2)
  | .MUXRatio value => ([0x00, 0xA8, value, 0], 3)
  | .FunctionSelectionA value => ([0x00, 0xAB, value, 0], 3)
  | .SelectExternalVDD => ([0x00, 0xAB, 0x00, 0], 3)
  | .SelectInternalVDD => ([0x00, 0xAB, 0x01, 0], 3)
  | .DisplayON => ([0x00, 0xAF, 0, 0], 2)
  | .DisplayOFF => ([0x00, 0xAE, 0, 0], 2)
  | .PhaseLength value => ([0x00, 0xB1, value, 0], 3)
  | .FrontClockDividerOscillatorFrequency value => ([0x00, 0xB3, value, 0], 3)
  | .Gpio value => ([0x00, 0xB5, value, 0], 3)
  | .SecondPreChargePeriod value => ([0x00, 0xB6, value, 0], 3)
  | .LinearLUT => ([0x00, 0xB9, 0, 0], 2)
  | .PreChargeVoltage value => ([0x00, 0xBC, value, 0], 3)
  | .VCOMH value => ([0x00, 0xBE, value, 0], 3)
  | .FunctionSelectionB value => ([0x00, 0xD5, value, 0], 3)
  | .SetCommandLock value => ([0x00, 0xFD, value, 0], 3)
  | .CommandUnlock => ([0x00, 0xFD, 0x00, 0x12], 4)
  | .CommandLock => ([0x00, 0xFD, 0x00, 0x16], 4)

/-- The wire bytes of a command: `&data[0..len]` in `send_cmd`. -/
def encode (cmd : Commands) : List Nat :=
  (send_cmd_enc cmd).1.take (send_cmd_enc cmd).2

/-- SSD1327 I2C driver container (the `i2c` handle is factored out into
`BusState`; `framebuffer` is the `[u8; 128 * 64]` array). -/
structure SSD1327I2C where
  slave_address : Nat
  width : Nat
  height : Nat
  framebuffer : List Nat

/-- State of the modelled I2C bus: the outcome oracle for each successive
transaction, the number of transactions issued so far, and the list of
issued transactions as (slave address, bytes) pairs. -/
structure BusState (ε : Type) where
  err : Nat → Option ε
  count : Nat
  trace : List (Nat × List Nat)

/-- Create a new SSD1327I2C object with custom slave address, width and
height; the stored width is halved (two pixels per byte). -/
def with_addr_wh (slave_address width height : Nat) : SSD1327I2C :=
  let framebuffer := List.replicate (128 * 64) 0
  let halfwidth := width / 2
  { slave_address := slave_address, width := halfwidth, height := height,
    framebuffer := framebuffer }

/-- Create a new SSD1327I2C object with custom slave address, width 127 and height 127. -/
def with_addr (slave_address : Nat) : SSD1327I2C :=
  with_addr_wh slave_address 0x7F 0x7F

/-- Create a new SSD1327I2C object with slave address 0x3C, and custom width and height. -/
def with_wh (width height : Nat) : SSD1327I2C :=
  with_addr_wh 0x3C width height

/-- Create a new SSD1327I2C object with slave address 0x3C, width 127 and height 127. -/
def new : SSD1327I2C :=
  with_addr_wh 0x3C 0x7F 0x7F

/-- One `self.i2c.write(self.slave_address, bytes)` transaction: records the
transaction and returns the oracle outcome for it (`none` = `Ok`). -/
def send_bytes {ε : Type} (st : SSD1327I2C) (bytes : List Nat) (b : BusState ε) :
    BusState ε × Option ε :=
  ({ err := b.err, count := b.count + 1,
     trace := b.trace ++ [(st.slave_address, bytes)] }, b.err b.count)

/-- Write command to the SSD1327: encode then write the `len`-byte slice. -/
def send_cmd {ε : Type} (st : SSD1327I2C) (cmd : Commands) (b : BusState ε) :
    BusState ε × Option ε :=
  send_bytes st (encode cmd) b

/-- Write 8 bytes of data to the SSD1327.  The Rust body indexes
`data[0] .. data[7]` unconditionally, which panics when the slice is
shorter than 8; the panic is modelled by `none`. -/
def send_data {ε : Type} (st : SSD1327I2C) (data : List Nat) (b : BusState ε) :
    Option (BusState ε × Option ε) :=
  if 8 ≤ data.length then
    some (send_bytes st
      [0x40, data.getD 0 0, data.getD 1 0, data.getD 2 0, data.getD 3 0,
       data.getD 4 0, data.getD 5 0, data.getD 6 0, data.getD 7 0] b)
  else
    none

/-- Write 8 bytes of the framebuffer (starting at `index`) to the SSD1327,
prefixed by the 0x40 data marker (`send_buffer_data`). -/
def send_buffer_data {ε : Type} (st : SSD1327I2C) (index : Nat) (b : BusState ε) :
    BusState ε × Option ε :=
  send_bytes st
    [0x40, st.framebuffer.getD index 0, st.framebuffer.getD (index + 1) 0,
     st.framebuffer.getD (index + 2) 0, st.framebuffer.getD (index + 3) 0,
     st.framebuffer.getD (index + 4) 0, st.framebuffer.getD (index + 5) 0,
     st.framebuffer.getD (index + 6) 0, st.framebuffer.getD (index + 7) 0] b

/-- Initialize the SSD1327: the fixed sequence of `send_cmd` calls, each
result discarded by `.ok()`; `init` itself returns no result. -/
def init {ε : Type} (st : SSD1327I2C) (b : BusState ε) : BusState ε :=
  let b := (send_cmd st .CommandUnlock b).1
  let b := (send_cmd st .DisplayOFF b).1
  let b := (send_cmd st (.ColumnAddress 0x00 st.width) b).1
  let b := (send_cmd st (.RowAddress 0x00 st.height) b).1
  let b := (send_cmd st (.ContrastControl 0x7f) b).1
  let b := (send_cmd st (.Remap 0x51) b).1
  let b := (send_cmd st (.DisplayStartLine 0x00) b).1
  let b := (send_cmd st (.DisplayOffset 0x00) b).1
  let b := (send_cmd st .DisplayModeNormal b).1
  let b := (send_cmd st (.MUXRatio 0x7e) b).1
  let b := (send_cmd st (.PhaseLength 0x51) b).1
  let b := (send_cmd st .LinearLUT b).1
  let b := (send_cmd st (.FrontClockDividerOscillatorFrequency 0x00) b).1
  let b := (send_cmd st .SelectInternalVDD b).1
  let b := (send_cmd st (.SecondPreChargePeriod 0x04) b).1
  let b := (send_cmd st (.VCOMH 0x05) b).1
  let b := (send_cmd st (.PreChargeVoltage 0x05) b).1
  let b := (send_cmd st (.FunctionSelectionB 0x60) b).1
  let b := (send_cmd st .DisplayON b).1
  b

/-- The framebuffer indices visited by the `flush` loops, in iteration
order: `for y in 0..=127 { for x in (0..=63).step_by(8) { x + y * 64 } }`. -/
def flushChunkIndices : List Nat :=
  (List.range 128).flatMap (fun y => (List.range 8).map (fun i => i * 8 + y * 64))

/-- The body of the `flush` loop: send one 8-byte chunk, keep `res` on
`Ok` and overwrite `res` with the error on `Err`. -/
def flushStep {ε : Type} (st : SSD1327I2C) (acc : BusState ε × Option ε) (index : Nat) :
    BusState ε × Option ε :=
  let s := send_buffer_data st index acc.1
  (s.1, match s.2 with
        | some e => some e
        | none => acc.2)

/-- Update the display with the current framebuffer: re-issue the column and
row address windows (results discarded by `.ok()`), then stream all chunks,
accumulating the last error in `res`. -/
def flush {ε : Type} (st : SSD1327I2C) (b : BusState ε) : BusState ε × Option ε :=
  let b := (send_cmd st (.ColumnAddress 0x00 st.width) b).1
  let b := (send_cmd st (.RowAddress 0x00 st.height) b).1
  flushChunkIndices.foldl (flushStep st) (b, none)

/-- The pixel-write body of `draw_iter` for one pixel `(x, y)` with 4-bit
gray value `g` (`Gray4` guarantees `luma() < 16`, hence `Fin 16`): in
bounds, the nibble of packed byte `x/2 + y*64` selected by the parity of
`x` is replaced by `g`; out of bounds, the framebuffer is untouched. -/
def writePixelFB (fb : List Nat) (x y : Int) (g : Fin 16) : List Nat :=
  if 0 ≤ x ∧ x ≤ 127 ∧ 0 ≤ y ∧ y ≤ 127 then
    let index : Nat := x.toNat / 2 + y.toNat * 64
    if x.toNat % 2 = 0 then
      fb.set index (Nat.lor (Nat.land (fb.getD index 0) 0x0F) (g.val <<< 4))
    else
      fb.set index (Nat.lor (Nat.land (fb.getD index 0) 0xF0) g.val)
  else
    fb

/-- `draw_iter`: fold the pixel-write body over the pixel sequence; no bus
transaction is issued and the result is always `Ok(())` (`none`). -/
def draw_iter {ε : Type} (st : SSD1327I2C) (b : BusState ε)
    (pixels : List (Int × Int × Fin 16)) :
    SSD1327I2C × BusState ε × Option ε :=
  (pixels.foldl
     (fun s p =>
       { s with framebuffer := writePixelFB s.framebuffer p.1 p.2.1 p.2.2 })
     st,
   b, none)

/-- The 9-byte payload sent by `send_buffer_data` for a chunk starting at
framebuffer index `idx` (spec-side abbreviation; `send_buffer_data` sends
exactly this list). -/
def chunkPayload (st : SSD1327I2C) (idx : Nat) : List Nat :=
  [0x40, st.framebuffer.getD idx 0, st.framebuffer.getD (idx + 1) 0,
   st.framebuffer.getD (idx + 2) 0, st.framebuffer.getD (idx + 3) 0,
   st.framebuffer.getD (idx + 4) 0, st.framebuffer.getD (idx + 5) 0,
   st.framebuffer.getD (idx + 6) 0, st.framebuffer.getD (idx + 7) 0]

/-- The error-accumulation discipline of the `flush` loop in isolation:
fold a list of per-transaction outcomes, keeping the accumulator on `none`
(`Ok`) and overwriting it on `some` (`Err`). -/
def lastErr {ε : Type} (xs : List (Option ε)) (r : Option ε) : Option ε :=
  xs.foldl (fun res x => match x with | some e => some e | none => res) r

/-! Helper lemmas about the flush loop, the chunk index list and byte-level
nibble arithmetic. -/

lemma send_buffer_data_eq {ε : Type} (st : SSD1327I2C) (idx : Nat) (b : BusState ε) :
    send_buffer_data st idx b = send_bytes st (chunkPayload st idx) b := rfl

lemma flush_foldl_fst (ε : Type) (st : SSD1327I2C) :
    ∀ (l : List Nat) (b : BusState ε) (r : Option ε),
      (l.foldl (flushStep st) (b, r)).1 =
        ⟨b.err, b.count + l.length,
         b.trace ++ l.map (fun idx => (st.slave_address, chunkPayload st idx))⟩ := by
  intro l
  induction l with
  | nil => intro b r; simp
  | cons a t ih =>
      intro b r
      rw [List.foldl_cons, ih]
      simp [flushStep, send_buffer_data, send_bytes, chunkPayload]
      omega

lemma flush_foldl_snd (ε : Type) (st : SSD1327I2C) :
    ∀ (l : List Nat) (b : BusState ε) (r : Option ε),
      (l.foldl (flushStep st) (b, r)).2 =
        lastErr ((List.range l.length).map (fun j => b.err (b.count + j))) r := by
  intro l
  induction l with
  | nil => intro b r; rfl
  | cons a t ih =>
      intro b r
      rw [List.foldl_cons, ih]
      rw [List.length_cons, List.range_succ_eq_map, List.map_cons, List.map_map]
      show _ = lastErr _ (match b.err (b.count + 0) with
        | some e => some e
        | none => r)
      have harg : (fun j => b.err (b.count + j)) ∘ Nat.succ =
          fun j => b.err (b.count + 1 + j) := by
        funext j
        exact congrArg b.err (by omega)
      rw [harg]
      simp [flushStep, send_buffer_data, send_bytes]

lemma lastErr_eq (ε : Type) :
    ∀ (xs : List (Option ε)) (r : Option ε),
      lastErr xs r = match (xs.filterMap id).getLast? with
        | some e => some e
        | none => r := by
  intro xs
  induction xs with
  | nil => intro r; rfl
  | cons x t ih =>
      intro r
      cases x with
      | none =>
          show lastErr t r = _
          rw [ih]
          simp only [List.filterMap_cons, id]
      | some e =>
          show lastErr t (some e) = _
          rw [ih]
          simp only [List.filterMap_cons, id]
          cases htl : t.filterMap id with
          | nil => simp
          | cons a u =>
              rw [List.getLast?_cons_cons]
              obtain ⟨z, hz⟩ := Option.isSome_iff_exists.mp
                ((List.getLast?_isSome (l := a :: u)).mpr (by simp))
              rw [hz]

set_option maxRecDepth 10000 in
lemma chunk_indices_len : flushChunkIndices.length = 1024 := by decide

set_option maxRecDepth 10000 in
set_option maxHeartbeats 1000000 in
lemma chunk_indices_eq : flushChunkIndices = (List.range 1024).map (fun k => k * 8) := by
  decide

lemma flush_unfold (ε : Type) (st : SSD1327I2C) (err : Nat → Option ε) :
    flush st ⟨err, 0, []⟩ = flushChunkIndices.foldl (flushStep st)
      (⟨err, 2, [(st.slave_address, encode (.ColumnAddress 0x00 st.width)),
                 (st.slave_address, encode (.RowAddress 0x00 st.height))]⟩, none) := by
  simp [flush, send_cmd, send_bytes]

lemma countP_data (st : SSD1327I2C) (l : List Nat) :
    List.countP (fun t => t.2.head? == some 0x40)
      (l.map (fun idx => (st.slave_address, chunkPayload st idx))) = l.length := by
  induction l with
  | nil => rfl
  | cons a t ih => simp [List.countP_cons, chunkPayload, ih]

set_option maxRecDepth 4000 in
lemma byte_even : ∀ b < 256, ∀ g < 16,
    Nat.lor (Nat.land b 0x0F) (g <<< 4) / 16 % 16 = g ∧
    Nat.lor (Nat.land b 0x0F) (g <<< 4) % 16 = b % 16 := by decide

set_option maxRecDepth 4000 in
lemma byte_odd : ∀ b < 256, ∀ g < 16,
    Nat.lor (Nat.land b 0xF0) g % 16 = g ∧
    Nat.lor (Nat.land b 0xF0) g / 16 % 16 = b / 16 % 16 := by decide

lemma list_eight (d : List Nat) (h : d.length = 8) :
    [d.getD 0 0, d.getD 1 0, d.getD 2 0, d.getD 3 0, d.getD 4 0, d.getD 5 0,
     d.getD 6 0, d.getD 7 0] = d := by
  rcases d with _ | ⟨a0, d⟩; · simp at h
  rcases d with _ | ⟨a1, d⟩; · simp at h
  rcases d with _ | ⟨a2, d⟩; · simp at h
  rcases d with _ | ⟨a3, d⟩; · simp at h
  rcases d with _ | ⟨a4, d⟩; · simp at h
  rcases d with _ | ⟨a5, d⟩; · simp at h
  rcases d with _ | ⟨a6, d⟩; · simp at h
  rcases d with _ | ⟨a7, d⟩; · simp at h
  rcases d with _ | ⟨a8, d⟩
  · rfl
  · simp at h

/-! The claims. -/

/-- C1 (counterexample): the claim says `flush` issues exactly
`height * (width / 8)` data-write transactions for every configured width
and height.  For the controller constructed with physical width 16 and
height 16, `flush` in fact issues 1024 data-write transactions (bus
payloads starting with the 0x40 data marker), while the claimed formula
gives 16 (with the stored half-width 8) or 32 (with the physical width 16),
neither of which is 1024. -/
theorem claim_C1_counterexample :
    ((flush (with_addr_wh 0x3C 16 16) ⟨fun _ => (none : Option Unit), 0, []⟩).1.trace.countP
       (fun t => t.2.head? == some 0x40)) = 1024 ∧
    (with_addr_wh 0x3C 16 16).height * ((with_addr_wh 0x3C 16 16).width / 8) = 16 ∧
    (16 : Nat) * (16 / 8) = 32 ∧ (16 : Nat) ≠ 1024 ∧ (32 : Nat) ≠ 1024 := by
  refine ⟨?_, by decide, by decide, by decide, by decide⟩
  rw [flush_unfold, flush_foldl_fst]
  show List.countP _ (_ ++ _) = 1024
  rw [List.countP_append, countP_data, chunk_indices_len]
  rfl

/-- C1 (amended): for every configured width and height and every pattern of
transport outcomes, `flush` first issues a column-address window command
`[0x00, 0x15, 0x00, width]` and a row-address window command
`[0x00, 0x75, 0x00, height]` spanning the stored width/height, and then
issues exactly 128 * 8 = 1024 data-write transactions of 8 framebuffer
bytes each — a fixed count independent of the configured dimensions —
iterating the framebuffer in row-major order (chunk `k` carries bytes
`k*8 .. k*8+7` as stored, with no reordering). -/
theorem claim_C1_amended (ε : Type) (st : SSD1327I2C) (err : Nat → Option ε) :
    (flush st ⟨err, 0, []⟩).1.trace =
      (st.slave_address, [0x00, 0x15, 0x00, st.width]) ::
      (st.slave_address, [0x00, 0x75, 0x00, st.height]) ::
      (List.range 1024).map (fun k =>
        (st.slave_address,
         [0x40, st.framebuffer.getD (k * 8) 0, st.framebuffer.getD (k * 8 + 1) 0,
          st.framebuffer.getD (k * 8 + 2) 0, st.framebuffer.getD (k * 8 + 3) 0,
          st.framebuffer.getD (k * 8 + 4) 0, st.framebuffer.getD (k * 8 + 5) 0,
          st.framebuffer.getD (k * 8 + 6) 0, st.framebuffer.getD (k * 8 + 7) 0])) ∧
    (flush st ⟨err, 0, []⟩).1.count = 2 + 128 * 8 := by
  constructor
  · rw [flush_unfold, flush_foldl_fst, chunk_indices_eq]
    simp [chunkPayload, encode, send_cmd_enc, Function.comp]
  · rw [flush_unfold, flush_foldl_fst]
    simp [chunk_indices_len]

/-- C2 (code bug, evaluation at the failing input): `send_data` called with
a 7-byte slice performs the out-of-bounds index `data[7]` and panics
(modelled by `none`), instead of failing fast with an invalid-argument
error as the claim requires. -/
theorem claim_C2_short_input_panics :
    send_data new [1, 2, 3, 4, 5, 6, 7]
      (BusState.mk (fun _ => (none : Option Unit)) 0 []) = none := rfl

/-- C3: for every `Commands` variant, the encoded byte sequence starts with
the 0x00 control prefix, its length equals the per-variant declared length,
and that length is between 2 and 4 inclusive. -/
theorem claim_C3_command_encoding (c : Commands) :
    (encode c).head? = some 0x00 ∧ (encode c).length = (send_cmd_enc c).2 ∧
    2 ≤ (send_cmd_enc c).2 ∧ (send_cmd_enc c).2 ≤ 4 := by
  cases c <;> simp [encode, send_cmd_enc]

/-- C4: for every in-bounds coordinate and every 4-bit gray value `g`, a
pixel write at even `x` sets the high nibble of framebuffer byte
`x/2 + y*64` to `g` and leaves the low nibble of that byte unchanged, and a
pixel write at odd `x` sets the low nibble to `g` and leaves the high
nibble unchanged. -/
theorem claim_C4_pixel_packing (fb : List Nat) (x y : Int) (g : Fin 16)
    (hlen : fb.length = 8192) (hbytes : ∀ v ∈ fb, v < 256)
    (hx0 : 0 ≤ x) (hx : x ≤ 127) (hy0 : 0 ≤ y) (hy : y ≤ 127) :
    (x.toNat % 2 = 0 →
      (writePixelFB fb x y g).getD (x.toNat / 2 + y.toNat * 64) 0 / 16 % 16 = g.val ∧
      (writePixelFB fb x y g).getD (x.toNat / 2 + y.toNat * 64) 0 % 16 =
        fb.getD (x.toNat / 2 + y.toNat * 64) 0 % 16) ∧
    (x.toNat % 2 = 1 →
      (writePixelFB fb x y g).getD (x.toNat / 2 + y.toNat * 64) 0 % 16 = g.val ∧
      (writePixelFB fb x y g).getD (x.toNat / 2 + y.toNat * 64) 0 / 16 % 16 =
        fb.getD (x.toNat / 2 + y.toNat * 64) 0 / 16 % 16) := by
  have hxn : x.toNat ≤ 127 := by omega
  have hyn : y.toNat ≤ 127 := by omega
  set i := x.toNat / 2 + y.toNat * 64 with hidef
  have hilen : i < fb.length := by omega
  have hmem : fb.getD i 0 = fb[i] := by
    simp [List.getD_eq_getElem?_getD, List.getElem?_eq_getElem hilen]
  have hb : fb.getD i 0 < 256 := by
    rw [hmem]; exact hbytes _ (List.getElem_mem hilen)
  unfold writePixelFB
  rw [if_pos ⟨hx0, hx, hy0, hy⟩]
  constructor
  · intro hpar
    rw [if_pos hpar]
    have hset : (fb.set i (Nat.lor (Nat.land (fb.getD i 0) 0x0F) (g.val <<< 4))).getD i 0
        = Nat.lor (Nat.land (fb.getD i 0) 0x0F) (g.val <<< 4) := by
      simp [List.getD_eq_getElem?_getD, List.getElem?_set_self hilen]
    rw [hset]
    exact byte_even _ hb _ g.isLt
  · intro hpar
    rw [if_neg (by omega)]
    have hset : (fb.set i (Nat.lor (Nat.land (fb.getD i 0) 0xF0) g.val)).getD i 0
        = Nat.lor (Nat.land (fb.getD i 0) 0xF0) g.val := by
      simp [List.getD_eq_getElem?_getD, List.getElem?_set_self hilen]
    rw [hset]
    exact byte_odd _ hb _ g.isLt

/-- C4 witness: on an all-0xAB framebuffer, writing gray value 5 at the
even coordinate (10, 3) leaves byte 197 with high nibble 5 and low nibble
11 (the low nibble of 0xAB). -/
theorem claim_C4_pixel_packing_witness :
    (writePixelFB (List.replicate 8192 171) 10 3 (5 : Fin 16)).getD 197 0 / 16 % 16 = 5 ∧
    (writePixelFB (List.replicate 8192 171) 10 3 (5 : Fin 16)).getD 197 0 % 16 = 11 := by
  have hlen : (List.replicate 8192 (171:Nat)).length = 8192 := List.length_replicate 8192 171
  have h := (claim_C4_pixel_packing (List.replicate 8192 171) 10 3 (5 : Fin 16)
    hlen (fun v hv => by rw [List.eq_of_mem_replicate hv]; decide)
    (by decide) (by decide) (by decide) (by decide)).1 (by decide)
  rw [show ((10:Int).toNat / 2 + (3:Int).toNat * 64) = 197 by decide] at h
  rw [show (List.replicate 8192 (171:Nat)).getD 197 0 = 171 by
        rw [List.getD_eq_getElem?_getD, List.getElem?_replicate,
            if_pos (by norm_num : (197:Nat) < 8192)]
        rfl] at h
  rw [show (171:Nat) % 16 = 11 from rfl] at h
  exact h

/-- C5: for every coordinate with `x` or `y` outside `[0, 127]` (including
negative coordinates) and every gray value, the pixel write leaves the
framebuffer entirely unchanged (clipping, not an error). -/
theorem claim_C5_oob_noop (fb : List Nat) (x y : Int) (g : Fin 16)
    (h : x < 0 ∨ 127 < x ∨ y < 0 ∨ 127 < y) :
    writePixelFB fb x y g = fb := by
  unfold writePixelFB
  rw [if_neg]
  rintro ⟨h1, h2, h3, h4⟩
  rcases h with h | h | h | h <;> omega

/-- C5 witness: a pixel write at x = 200 leaves a framebuffer unchanged. -/
theorem claim_C5_oob_noop_witness :
    writePixelFB [17, 34, 51] 200 5 (9 : Fin 16) = [17, 34, 51] :=
  claim_C5_oob_noop [17, 34, 51] 200 5 (9 : Fin 16) (Or.inr (Or.inl (by decide)))

/-- C6: for every pattern of per-chunk transport failures, `flush` attempts
all 1024 chunk writes (plus the two addressing commands, 1026 transactions
in total, regardless of failures), and its result is the error of the
last failing chunk write in iteration order — `none` (`Ok`) when no chunk
write fails — with all earlier chunk errors masked.  Chunk `k` of the loop
is bus transaction `2 + k`. -/
theorem claim_C6_flush_last_error (ε : Type) (st : SSD1327I2C) (err : Nat → Option ε) :
    (flush st ⟨err, 0, []⟩).2 =
      (((List.range 1024).map (fun k => err (2 + k))).filterMap id).getLast? ∧
    (flush st ⟨err, 0, []⟩).1.count = 1026 := by
  constructor
  · rw [flush_unfold, flush_foldl_snd, chunk_indices_len, lastErr_eq]
    cases h : (((List.range 1024).map (fun k => err (2 + k))).filterMap id).getLast? with
    | none => rfl
    | some e => rfl
  · rw [flush_unfold, flush_foldl_fst]
    simp [chunk_indices_len]

/-- C7: for every pattern of transport outcomes, `init` issues exactly the
fixed ordered 19-command sequence (unlock, power off, column window
`[0, width]`, row window `[0, height]`, contrast, remap, start line,
vertical offset, normal display mode, multiplex ratio, phase length,
default grayscale lookup table, oscillator frequency, internal supply
select, second pre-charge period, deselect voltage, pre-charge voltage,
extended function select, power on); each step discards its transport
failure independently, the issued sequence does not depend on the error
pattern, and `init` returns no error (its type has no error component). -/
theorem claim_C7_init_sequence (ε : Type) (st : SSD1327I2C) (err : Nat → Option ε) :
    init st ⟨err, 0, []⟩ =
      ⟨err, 19,
       [(st.slave_address, [0x00, 0xFD, 0x00, 0x12]),
        (st.slave_address, [0x00, 0xAE]),
        (st.slave_address, [0x00, 0x15, 0x00, st.width]),
        (st.slave_address, [0x00, 0x75, 0x00, st.height]),
        (st.slave_address, [0x00, 0x81, 0x7f]),
        (st.slave_address, [0x00, 0xA0, 0x51]),
        (st.slave_address, [0x00, 0xA1, 0x00]),
        (st.slave_address, [0x00, 0xA2, 0x00]),
        (st.slave_address, [0x00, 0xA4]),
        (st.slave_address, [0x00, 0xA8, 0x7e]),
        (st.slave_address, [0x00, 0xB1, 0x51]),
        (st.slave_address, [0x00, 0xB9]),
        (st.slave_address, [0x00, 0xB3, 0x00]),
        (st.slave_address, [0x00, 0xAB, 0x01]),
        (st.slave_address, [0x00, 0xB6, 0x04]),
        (st.slave_address, [0x00, 0xBE, 0x05]),
        (st.slave_address, [0x00, 0xBC, 0x05]),
        (st.slave_address, [0x00, 0xD5, 0x60]),
        (st.slave_address, [0x00, 0xAF])]⟩ := by
  simp [init, send_cmd, send_bytes, encode, send_cmd_enc]

/-- C8: for every input of exactly 8 bytes, `send_data` performs a single
bus transaction whose 9-byte payload is 0x40 followed by the original 8
input bytes in order. -/
theorem claim_C8_send_data_payload (ε : Type) (st : SSD1327I2C) (b : BusState ε)
    (d : List Nat) (h : d.length = 8) :
    send_data st d b =
      some (⟨b.err, b.count + 1, b.trace ++ [(st.slave_address, 0x40 :: d)]⟩, b.err b.count) ∧
    (0x40 :: d).length = 9 := by
  constructor
  · unfold send_data
    rw [if_pos (show 8 ≤ d.length by omega)]
    unfold send_bytes
    rw [show ((0x40 : Nat) :: [d.getD 0 0, d.getD 1 0, d.getD 2 0, d.getD 3 0, d.getD 4 0,
          d.getD 5 0, d.getD 6 0, d.getD 7 0]) = 0x40 :: d from congrArg _ (list_eight d h)]
  · simp [h]

/-- C8 witness: sending the 8 bytes 1..8 issues one transaction carrying
`[0x40, 1, 2, 3, 4, 5, 6, 7, 8]`. -/
theorem claim_C8_send_data_payload_witness :
    send_data new [1, 2, 3, 4, 5, 6, 7, 8] ⟨fun _ => (none : Option Unit), 0, []⟩ =
      some (⟨fun _ => none, 1, [(0x3C, [0x40, 1, 2, 3, 4, 5, 6, 7, 8])]⟩, none) ∧
    ([0x40, 1, 2, 3, 4, 5, 6, 7, 8] : List Nat).length = 9 := by
  have h := claim_C8_send_data_payload Unit new ⟨fun _ => none, 0, []⟩
    [1, 2, 3, 4, 5, 6, 7, 8] rfl
  have haddr : new.slave_address = 0x3C := rfl
  rw [haddr] at h
  simpa using h

/-- C9: the default constructor stores bus address 0x3C, half-width
0x3F = 0x7F / 2 (truncating division) and height 0x7F; in general the
stored width is the physical width halved with truncating division. -/
theorem claim_C9_constructor_defaults :
    new.slave_address = 0x3C ∧ new.width = 0x3F ∧ new.height = 0x7F ∧
    ∀ a w h, (with_addr_wh a w h).width = w / 2 :=
  ⟨rfl, rfl, rfl, fun _ _ _ => rfl⟩

/-- C10: for every finite pixel sequence (out-of-bounds coordinates
included), `draw_iter` returns `Ok(())` (`none`) and issues no bus
transaction: the bus state is returned unchanged. -/
theorem claim_C10_draw_iter_ok (ε : Type) (st : SSD1327I2C) (b : BusState ε)
    (pixels : List (Int × Int × Fin 16)) :
    (draw_iter st b pixels).2.1 = b ∧ (draw_iter st b pixels).2.2 = none :=
  ⟨rfl, rfl⟩

end SSD1327
